import Mathlib

/-!
Verification of the speech-timing and render-orchestration core of the TIK
pipeline (src/main.py), shallowly embedded in Lean 4.

Durations are modelled as rationals (`ℚ`); Python's `round(x, n)` (banker's
rounding, half to even) is modelled by `pyRound`/`pyRoundDigits`.  Python
string operations are modelled by structurally recursive functions on the
character list of a `String` (Python `len`/indexing count code points, as
`String.data` does).  File-system and network effects are modelled by
passing the observed outcomes (file existence, measured durations, process
results) as explicit arguments.
-/

namespace TIK

/-! ### Python string primitives -/

/-- ASCII whitespace as recognised by Python's `str.strip()` (the texts in
this code base contain no exotic Unicode whitespace). -/
def isPyWhitespace (c : Char) : Bool :=
  c = ' ' || c = '\t' || c = '\n' || c = '\r' || c = '\x0b' || c = '\x0c'

def dropLeadingWS : List Char → List Char
  | [] => []
  | c :: cs => if isPyWhitespace c then dropLeadingWS cs else c :: cs

/-- Python `s.strip()`. -/
def pyStrip (s : String) : String :=
  ⟨(dropLeadingWS (dropLeadingWS s.data.reverse).reverse)⟩

/-- Python `s.replace(ch, "")` for a single-character pattern: removes every
occurrence (the source only ever replaces `"%"` and `"+"` by `""`). -/
def pyRemoveChar (ch : Char) (s : String) : String :=
  ⟨s.data.filter (fun c => c ≠ ch)⟩

/-- Python `s.startswith(ch)` for a single-character pattern. -/
def pyStartsWith (ch : Char) (s : String) : Bool :=
  match s.data with
  | [] => false
  | c :: _ => c = ch

/-- Python `s[1:]`. -/
def pyDrop1 (s : String) : String :=
  ⟨s.data.tail⟩

/-- Python `len(s)` (code points). -/
def pyLen (s : String) : Nat :=
  s.data.length

def digitsToNat (l : List Char) : Nat :=
  l.foldl (fun acc c => acc * 10 + (c.toNat - '0'.toNat)) 0

/-- An optional non-negative integer from a digit string: `none` unless the
string is non-empty and all digits. -/
def digitsToNat? (l : List Char) : Option Nat :=
  if l ≠ [] ∧ l.all Char.isDigit then some (digitsToNat l) else none

/-- Python `int(s)` on a string: strips whitespace, accepts one optional
leading sign followed by digits; raises (here: `none`) otherwise. -/
def pyInt? (s : String) : Option Int :=
  let t := (pyStrip s).data
  match t with
  | '+' :: rest => (digitsToNat? rest).map Int.ofNat
  | '-' :: rest => (digitsToNat? rest).map (fun n => -(n : Int))
  | _ => (digitsToNat? t).map Int.ofNat

/-- Python `" ".join(l)`. -/
def joinSpace (l : List String) : String :=
  ⟨List.intercalate [' '] (l.map String.data)⟩

/-- Python string concatenation. -/
def pyConcat (a b : String) : String :=
  ⟨a.data ++ b.data⟩

/-- Left-to-right concatenation of several Python strings. -/
def pyConcatAll (l : List String) : String :=
  ⟨(l.map String.data).flatten⟩

/-- Python `str(v)` for an integer (used by f-string formatting). -/
def intToString (v : Int) : String :=
  if 0 ≤ v then ⟨Nat.toDigits 10 v.toNat⟩
  else pyConcat "-" ⟨Nat.toDigits 10 (-v).toNat⟩

/-! ### Python rounding -/

/-- Python `round(q)` / `round(q, 0)`: nearest integer, ties to even. -/
def pyRound (q : ℚ) : ℤ :=
  if q - ⌊q⌋ = 1/2 then (if Even ⌊q⌋ then ⌊q⌋ else ⌊q⌋ + 1) else round q

/-- Python `round(q, n)` for `n` decimal digits (the result stays a number). -/
def pyRoundDigits (q : ℚ) (n : ℕ) : ℚ :=
  (pyRound (q * 10 ^ n) : ℚ) / 10 ^ n

/-! ### SSML dynamic-rate configuration (src/main.py lines 522-533) -/

/-- Source `SSML_RATE_THRESHOLDS`: ordered tiers `(name, max_chars, rate)`;
`none` stands for Python's `float('inf')` bound of the last tier. -/
def SSML_RATE_THRESHOLDS : List (String × Option Nat × String) :=
  [("short", some 50, "+0%"),
   ("medium", some 150, "+10%"),
   ("long", some 300, "+15%"),
   ("very_long", some 500, "+20%"),
   ("extra_long", none, "+25%")]

def TIKTOK_MAX_DURATION : ℚ := 55

def TIKTOK_COMPRESS_RATE : String := "+15%"

/-- Does `text_length <= config["max_chars"]` hold for a tier bound? -/
def tierMatches (textLength : Nat) : Option Nat → Bool
  | some m => textLength ≤ m
  | none => true

/-- The tier loop of `_calculate_dynamic_rate`: the first matching tier's
rate string, stripped of `%` and `+` and parsed as an integer (0 if no tier
matches, as the Python accumulator starts at 0). -/
def dynamicRateValue (textLength : Nat) : Int :=
  match SSML_RATE_THRESHOLDS.find? (fun c => tierMatches textLength c.2.1) with
  | some c =>
      match digitsToNat? (pyRemoveChar '+' (pyRemoveChar '%' c.2.2)).data with
      | some n => (n : Int)
      | none => 0
  | none => 0

/-- Parsing of `base_rate` in `_calculate_dynamic_rate` (lines 598-605):
strip `%`, then branch on a leading sign; the empty string is treated as 0;
any other string goes through `int(...)` and may raise (`none`). -/
def parseBaseRate (base_rate : String) : Option Int :=
  let c := pyRemoveChar '%' base_rate
  if pyStartsWith '+' c then pyInt? (pyDrop1 c)
  else if pyStartsWith '-' c then pyInt? c
  else if c.data = [] then some 0
  else pyInt? c

/-- Final formatting step of `_calculate_dynamic_rate` (lines 613-617). -/
def formatRate (v : Int) : String :=
  if 0 ≤ v then pyConcat "+" (pyConcat (intToString v) "%")
  else pyConcat (intToString v) "%"

/-- Source `_calculate_dynamic_rate(text, base_rate)` (lines 574-617): tier bonus
from the stripped text length, plus the parsed base rate, clamped to
[-50, 50] and formatted.  `none` models the `ValueError` that `int(...)`
raises on a malformed base rate. -/
def _calculate_dynamic_rate (text : String) (base_rate : String) : Option String :=
  let text_length := pyLen (pyStrip text)
  let dynamic_rate_value := dynamicRateValue text_length
  match parseBaseRate base_rate with
  | none => none
  | some base_rate_value =>
    let final_rate_value := max (-50) (min 50 (base_rate_value + dynamic_rate_value))
    some (formatRate final_rate_value)

/-- Source `estimate_reading_time(text, chars_per_second)` (lines 535-549). -/
def estimate_reading_time (text : String) (chars_per_second : ℚ) : ℚ :=
  if text.data = [] then 0 else (pyLen (pyStrip text) : ℚ) / chars_per_second

/-- Source `should_compress_audio(total_text, target_max)` (lines 552-571). -/
def should_compress_audio (total_text : String) (target_max : ℚ) : Bool × String :=
  let estimated := estimate_reading_time total_text 5
  if target_max < estimated then (true, TIKTOK_COMPRESS_RATE) else (false, "+0%")

/-- Effective rate of one synthesis call (`_build_ssml`, also the fallback
branches of `generate_azure_tts`): the dynamic adjustment is applied exactly
when `use_dynamic_rate` is true. -/
def effectiveRate (use_dynamic_rate : Bool) (text rate : String) : Option String :=
  if use_dynamic_rate then _calculate_dynamic_rate text rate else some rate

/-! ### Duration measurement (src/main.py lines 1323-1347 and 396-443)

`get_audio_duration(file_path)` reads the produced file's own metadata
(mutagen, or pydub as fallback).  The file system and the metadata parser
are modelled by two arguments: whether the file exists, and the result of
the metadata read (`none` models the exception branch). -/

def get_audio_duration (fileExists : Bool) (metaRead : Option ℚ) : ℚ :=
  if !fileExists then 0
  else
    match metaRead with
    | some d => d
    | none => 0

/-- Source `get_video_duration(file_path)` (lines 396-443): ffprobe first, then the
file-size heuristic `size_mb / 0.2`, else 0.  (The size heuristic exists
only here, for video files — not in `get_audio_duration`.) -/
def get_video_duration (fileExists : Bool) (ffprobeRead : Option ℚ) (fileSizeMB : ℚ) : ℚ :=
  if !fileExists then 0
  else
    match ffprobeRead with
    | some d => d
    | none => fileSizeMB / (2/10)

/-- Modelled from the spec (§4.3, §7 *DurationMeasurementFailure*): the
duration of a produced audio file whose metadata read failed is "estimated
from file size as a last resort and a low-confidence flag is set".  The
size→duration heuristic is the repository's own (`get_video_duration`:
`size_mb / 0.2`); the Bool is the low-confidence flag. -/
def spec_audio_duration (metaRead : Option ℚ) (fileSizeMB : ℚ) : ℚ × Bool :=
  match metaRead with
  | some d => (d, false)
  | none => (fileSizeMB / (2/10), true)

/-! ### Video 1 — news variant (`_build_video1_news`, lines 1401-1541) -/

/-- The parts of the video-1 script that drive audio generation
(`opening_ment`, `segments` with their `ko` texts, `audio_text` fallback,
`closing_ment` after its `.get` default has been applied). -/
structure V1Script where
  opening_ment : String
  closing_ment : String
  segments : List String
  audio_text : String

/-- Source line `if not segments and audio_text: segments = [...]` with the `ko` field set to `audio_text`. -/
def v1EffSegments (s : V1Script) : List String :=
  if s.segments = [] ∧ s.audio_text.data ≠ [] then [s.audio_text] else s.segments

/-- Source `total_text = opening_ment + " " + " ".join(...) + " " + closing_ment`. -/
def v1TotalText (s : V1Script) : String :=
  pyConcatAll [s.opening_ment, " ", joinSpace (v1EffSegments s), " ", s.closing_ment]

/-- Source `base_rate = compress_rate if should_compress else cfg["rate"]`, with
video 1's configured voice rate `"-10%"`. -/
def v1BaseRate (s : V1Script) : String :=
  let sc := should_compress_audio (v1TotalText s) TIKTOK_MAX_DURATION
  if sc.1 then sc.2 else "-10%"

/-- One synthesis call of `_build_video1_news`, with the effective prosody
rate it carries: opening and closing are generated with
`use_dynamic_rate=False` (flat base rate), content segments with
`use_dynamic_rate=True` (dynamic tier bonus applied on top). -/
inductive V1Call where
  | opening (rate : Option String)
  | segment (ko : String) (rate : Option String)
  | closing (rate : Option String)
deriving DecidableEq

/-- The ordered synthesis calls `_build_video1_news` issues: opening if
non-empty, each content segment with non-empty `ko` (`if not ko_text:
continue`), closing if non-empty; the early return fires when there
are no segments and no opening. -/
def v1SynthCalls (s : V1Script) : List V1Call :=
  let segs := v1EffSegments s
  if segs = [] ∧ s.opening_ment.data = [] then []
  else
    let br := v1BaseRate s
    (if s.opening_ment.data ≠ [] then [V1Call.opening (effectiveRate false s.opening_ment br)] else [])
    ++ segs.filterMap (fun ko =>
        if ko.data = [] then none
        else some (V1Call.segment ko (effectiveRate true ko br)))
    ++ (if s.closing_ment.data ≠ [] then [V1Call.closing (effectiveRate false s.closing_ment br)] else [])

/-- The `total_duration` field `_build_video1_news` returns.  Arguments
beyond the script are the measured outcomes of the synthesis calls
(opening/segment/closing durations, aligned by position; a duration `≤ 0`
is a failed synthesis whose piece is skipped) and `measuredCombined`, what
`get_audio_duration` returns on the exported combined file.  When any audio
was appended, the code re-measures the export: `result["total_duration"] =
round(actual_duration, 3)`; otherwise it reports the running sum. -/
def v1AnyAudio (s : V1Script) (openingDur : ℚ) (segDurs : List ℚ) (closingDur : ℚ) : Bool :=
  (s.opening_ment.data ≠ [] ∧ 0 < openingDur)
  ∨ ((v1EffSegments s).zip segDurs).any (fun p => p.1.data ≠ [] ∧ 0 < p.2)
  ∨ (s.closing_ment.data ≠ [] ∧ 0 < closingDur)

/-- Running sum `total_duration` accumulated by `_build_video1_news`
(opening and closing add a 0.3 s pause when their file was appended). -/
def v1RunningSum (s : V1Script) (openingDur : ℚ) (segDurs : List ℚ) (closingDur : ℚ) : ℚ :=
  (if s.opening_ment.data ≠ [] ∧ 0 < openingDur then openingDur + 3/10 else 0)
  + (((v1EffSegments s).zip segDurs).map
      (fun p => if p.1.data ≠ [] ∧ 0 < p.2 then p.2 else 0)).sum
  + (if s.closing_ment.data ≠ [] ∧ 0 < closingDur then closingDur + 3/10 else 0)

def v1TotalDuration (s : V1Script) (openingDur : ℚ) (segDurs : List ℚ)
    (closingDur : ℚ) (measuredCombined : ℚ) : ℚ :=
  if v1AnyAudio s openingDur segDurs closingDur then pyRoundDigits measuredCombined 3
  else pyRoundDigits (v1RunningSum s openingDur segDurs closingDur) 3

/-! ### Quiz variants (`_build_quiz_audio`, lines 1699-1876) -/

/-- Source `QUIZ_SILENCE_MS = 4000` (line 1320). -/
def QUIZ_SILENCE_MS : ℚ := 4000

/-- The script fields `_build_quiz_audio` consumes (after `.get` defaults). -/
structure QuizScript where
  opening_ment : String
  closing_ment : String
  question_ko : String
  options_ko : List String
  correct_answer : String
  explanation_ko : String

/-- One piece of the combined quiz audio, in append order. -/
inductive QuizPiece where
  | opening
  | shortPause
  | questionBlock
  | thinkingSilence
  | answerBlock
  | closing
deriving DecidableEq

/-- The `total_text` of `_build_quiz_audio` (lines 1742-1743): opening, question,
options joined by spaces, the answer announcement f-string, explanation and
closing, separated as in the source. -/
def quizTotalText (s : QuizScript) : String :=
  pyConcatAll [s.opening_ment, " ", s.question_ko, " ", joinSpace s.options_ko,
    " ", "정답은 ", s.correct_answer, "입니다. ", s.explanation_ko, " ", s.closing_ment]

/-- What `_build_quiz_audio` produces, as far as timing and ordering are
concerned.  `combined` lists the pieces appended to `combined_audio` with
their durations; `exported` lists the separate sub-audio files written. -/
structure QuizResult where
  combined : List (QuizPiece × ℚ)
  exported : List String
  silence_duration : ℚ
  ssml_compressed : Bool
  questionReached : Bool
deriving DecidableEq

/-- Source `_build_quiz_audio(script, assets_dir, video_key)`.  `video_num` is the
`"3"`/`"4"` drawn from the key; `openingDur`, `questionDur`, `answerDur`,
`closingDur` are the measured durations of the four synthesized pieces
(`≤ 0` models a failed synthesis for opening/closing, which are guarded by
`if duration > 0`; the question and answer blocks are appended
unconditionally).  An empty question returns early with no audio. -/
def _build_quiz_audio (s : QuizScript) (video_num : String)
    (openingDur questionDur answerDur closingDur : ℚ) : QuizResult :=
  if s.question_ko.data = [] then
    { combined := [], exported := [],
      silence_duration := QUIZ_SILENCE_MS / 1000,
      ssml_compressed := false, questionReached := false }
  else
    let sc := should_compress_audio (quizTotalText s) TIKTOK_MAX_DURATION
    let openingPart : List (QuizPiece × ℚ) :=
      if s.opening_ment.data ≠ [] ∧ 0 < openingDur then
        [(QuizPiece.opening, openingDur), (QuizPiece.shortPause, 3/10)]
      else []
    let closingPart : List (QuizPiece × ℚ) :=
      if s.closing_ment.data ≠ [] ∧ 0 < closingDur then
        [(QuizPiece.shortPause, 3/10), (QuizPiece.closing, closingDur)]
      else []
    { combined := openingPart
        ++ [(QuizPiece.questionBlock, questionDur),
            (QuizPiece.thinkingSilence, QUIZ_SILENCE_MS / 1000),
            (QuizPiece.answerBlock, answerDur)]
        ++ closingPart,
      exported :=
        (if s.opening_ment.data ≠ [] ∧ 0 < openingDur then
          [pyConcat (pyConcat "v" video_num) "_opening.mp3"] else [])
        ++ [pyConcat (pyConcat "v" video_num) "_question.mp3",
            pyConcat (pyConcat "v" video_num) "_answer.mp3"]
        ++ (if s.closing_ment.data ≠ [] ∧ 0 < closingDur then
          [pyConcat (pyConcat "v" video_num) "_closing.mp3"] else []),
      silence_duration := QUIZ_SILENCE_MS / 1000,
      ssml_compressed := sc.1,
      questionReached := true }

/-! ### Video 5 — deep dive (`_build_video5_deep_dive` and its inner
`process_segment`, lines 1879-2113) -/

/-- One call to `process_segment`: the section name, the `ko` text it was
given, and the duration the synthesis oracle returned for it. -/
structure DeepCall where
  section_name : String
  ko : String
  dur : ℚ

/-- Source `_get_section_label(section)` (lines 2116-2131). -/
def sectionLabels : List (String × String) :=
  [("opening", "🎬 Intro"),
   ("news", "📰 Tin tức"),
   ("transition", "🔄 Chuyển tiếp"),
   ("exam", "📝 Đề thi TOPIK 54"),
   ("essay_intro", "✍️ Văn mẫu"),
   ("vocab_intro", "📚 Từ vựng & Ngữ pháp"),
   ("closing", "👋 Kết thúc")]

/-- Python `section.startswith(key)` for the label lookup. -/
def pyStartsWithStr (s pre : String) : Bool :=
  pre.data.isPrefixOf s.data

def _get_section_label (sec : String) : String :=
  match sectionLabels.find? (fun kv => pyStartsWithStr sec kv.1) with
  | some kv => kv.2
  | none => sec

structure DeepTimestamp where
  section_name : String
  start_sec : ℚ
  label : String
deriving DecidableEq

structure DeepSegment where
  section_name : String
  ko : String
  duration : ℚ
deriving DecidableEq

structure DeepState where
  segments : List DeepSegment
  timestamps : List DeepTimestamp
  total : ℚ

/-- One `process_segment` call: skip empty text and failed synthesis
(`duration <= 0`); otherwise record the segment, record a timestamp at
`round(total_duration, 0)` *before* adding this segment's duration, then
add the duration plus the 0.5 s section pause (a positive measured duration
entails the file existed, so the `os.path.exists` branch is taken). -/
def process_segment (st : DeepState) (c : DeepCall) : DeepState :=
  if (pyStrip c.ko).data = [] then st
  else if c.dur ≤ 0 then st
  else
    { segments := st.segments ++
        [{ section_name := c.section_name, ko := c.ko,
           duration := pyRoundDigits c.dur 3 }],
      timestamps := st.timestamps ++
        [{ section_name := c.section_name,
           start_sec := pyRoundDigits st.total 0,
           label := _get_section_label c.section_name }],
      total := st.total + c.dur + 1/2 }

def deepLoop (st : DeepState) : List DeepCall → DeepState
  | [] => st
  | c :: cs => deepLoop (process_segment st c) cs

structure DeepResult where
  segments : List DeepSegment
  timestamps : List DeepTimestamp
  total_duration : ℚ

/-- Source `_build_video5_deep_dive`, viewed through the sequence of
`process_segment` calls its seven sections issue: the returned
`total_duration` is `round(total_duration, 3)` of the running sum — the
exported combined file is *not* re-measured here. -/
def _build_video5_deep_dive (calls : List DeepCall) : DeepResult :=
  let fin := deepLoop { segments := [], timestamps := [], total := 0 } calls
  { segments := fin.segments,
    timestamps := fin.timestamps,
    total_duration := pyRoundDigits fin.total 3 }

/-- Modelled from the spec (§4.4 step 6, C2): the authoritative total
duration of a variant is obtained by re-reading the exported combined
file. -/
def spec_total_duration (measuredCombined : ℚ) : ℚ :=
  pyRoundDigits measuredCombined 3

/-- Sum of the contributions the deep-dive loop adds to `total_duration`:
each processed call adds its duration plus the 0.5 s pause. -/
def deepDurSum : List DeepCall → ℚ
  | [] => 0
  | c :: cs =>
    (if (pyStrip c.ko).data = [] ∨ c.dur ≤ 0 then 0 else c.dur + 1/2) + deepDurSum cs

/-- The exact running offsets at which the processed deep-dive segments are
appended, starting from offset `t`. -/
def deepOffsets (t : ℚ) : List DeepCall → List ℚ
  | [] => []
  | c :: cs =>
    if (pyStrip c.ko).data = [] ∨ c.dur ≤ 0 then deepOffsets t cs
    else t :: deepOffsets (t + c.dur + 1/2) cs

/-! ### Render orchestration (`render_single_video` /
`render_all_videos`, lines 2531-2646) -/

/-- One entry of `VIDEO_MANIFEST` (lines 255-261).  `pre` is the manifest's
`"prefix"` field (renamed: `prefix` is reserved in Lean). -/
structure ManifestEntry where
  key : String
  composition : String
  pre : String
  audio : String
deriving DecidableEq

def VIDEO_MANIFEST : List ManifestEntry :=
  [{ key := "video_1_news", composition := "TikTok-NewsHealing",
     pre := "V1_News", audio := "v1_news.mp3" },
   { key := "video_2_outline", composition := "TikTok-WritingCoach",
     pre := "V2_Writing", audio := "v2_outline.mp3" },
   { key := "video_3_vocab_quiz", composition := "TikTok-VocabQuiz",
     pre := "V3_Vocab", audio := "v3_vocab_quiz.mp3" },
   { key := "video_4_grammar_quiz", composition := "TikTok-GrammarQuiz",
     pre := "V4_Grammar", audio := "v4_grammar_quiz.mp3" },
   { key := "video_5_deep_dive", composition := "YouTube-DeepDive",
     pre := "V5_DeepDive", audio := "v5_deep_dive.mp3" }]

/-- The part of the world one `render_single_video` call observes. -/
structure RenderEnv where
  jsonExists : Bool
  procRaises : Bool
  outputExists : Bool
deriving DecidableEq

/-- Source `render_single_video(composition_id, json_path, output_path)`: `False`
when the props JSON is missing, when `subprocess.run(check=True)` raises
(non-zero exit or any other exception — both `except` arms return `False`),
or when the output file is absent after the run; `True` only after the
`os.path.exists(abs_output)` check passes. -/
def render_single_video (env : RenderEnv) : Bool :=
  if !env.jsonExists then false
  else if env.procRaises then false
  else env.outputExists

/-- The world one loop iteration of `render_all_videos` observes: the
environment of its `render_single_video` call, plus whether that call
itself raised (caught by the loop's own `except`). -/
structure JobWorld where
  env : RenderEnv
  raised : Bool
deriving DecidableEq

/-- Source `os.path.join("topik-video", "public", prefix + "_" + timestamp + ".mp4")`. -/
def video_path (timestamp : Nat) (e : ManifestEntry) : String :=
  pyConcat (pyConcat (pyConcat "topik-video/public/" e.pre) "_")
    (pyConcat ⟨Nat.toDigits 10 timestamp⟩ ".mp4")

/-- Source `VIDEO_MANIFEST if include_deep_dive else VIDEO_MANIFEST[:4]`. -/
def manifest_to_use (include_deep_dive : Bool) : List ManifestEntry :=
  if include_deep_dive then VIDEO_MANIFEST else VIDEO_MANIFEST.take 4

/-- The loop of `render_all_videos`: `rendered` collects the paths of
successful jobs, `failed` the composition ids of failing or raising jobs;
a head-first recursion producing the same two lists as the source's
append-in-order loop. -/
def renderLoop (timestamp : Nat) : List (ManifestEntry × JobWorld) → List String × List String
  | [] => ([], [])
  | (e, w) :: rest =>
    let acc := renderLoop timestamp rest
    if w.raised then (acc.1, e.composition :: acc.2)
    else if render_single_video w.env then (video_path timestamp e :: acc.1, acc.2)
    else (acc.1, e.composition :: acc.2)

/-- Source `render_all_videos(json_path, include_deep_dive)`: runs the loop over
the chosen manifest (each entry paired with the world its iteration
observes) and returns `rendered` — only the successful paths; the `failed`
list stays internal and is only logged. -/
def render_all_videos (timestamp : Nat) (include_deep_dive : Bool)
    (worlds : List JobWorld) : List String :=
  (renderLoop timestamp ((manifest_to_use include_deep_dive).zip worlds)).1

/-- A 40-character text (short tier, +0 bonus), used as a concrete input. -/
def kText40 : String := ⟨List.replicate 40 'k'⟩

/-- A 250-character text (long tier, +15 bonus), used as a concrete input. -/
def kText250 : String := ⟨List.replicate 250 'k'⟩

/-! ## Helper lemmas -/

theorem pyRound_le_add_half (q : ℚ) : (pyRound q : ℚ) ≤ q + 1/2 := by
  rw [pyRound]
  split_ifs with h he
  · have : (⌊q⌋ : ℚ) ≤ q := Int.floor_le q
    linarith
  · have : (⌊q⌋ : ℚ) = q - 1/2 := by linarith
    push_cast
    linarith
  · rw [round_eq]
    exact_mod_cast Int.floor_le (q + 1/2)

theorem sub_half_le_pyRound (q : ℚ) : q - 1/2 ≤ (pyRound q : ℚ) := by
  rw [pyRound]
  split_ifs with h he
  · linarith [(by linarith : (⌊q⌋ : ℚ) = q - 1/2)]
  · have : (⌊q⌋ : ℚ) = q - 1/2 := by linarith
    push_cast
    linarith
  · rw [round_eq]
    have := Int.sub_one_lt_floor (q + 1/2)
    linarith

theorem pyRoundDigits_zero (q : ℚ) : pyRoundDigits q 0 = (pyRound q : ℚ) := by
  simp [pyRoundDigits]

theorem pyRoundDigits_three_ge (q : ℚ) : q - 1/2000 ≤ pyRoundDigits q 3 := by
  rw [pyRoundDigits]
  have h := sub_half_le_pyRound (q * 10 ^ 3)
  rw [le_div_iff₀ (by norm_num : (0:ℚ) < 10 ^ 3)]
  nlinarith [h]

theorem int_le_of_cast_le_add_half {a b : ℤ} (h : (a : ℚ) ≤ (b : ℚ) + 1/2) : a ≤ b := by
  by_contra hc
  push_neg at hc
  have h1 : ((b + 1 : ℤ) : ℚ) ≤ (a : ℚ) := by exact_mod_cast hc
  push_cast at h1
  linarith

/-- Rounding to whole seconds is monotone across a gap of at least ½ s. -/
theorem pyRound_le_of_add_half_le {a b : ℚ} (h : a + 1/2 ≤ b) :
    pyRound a ≤ pyRound b := by
  have h1 := pyRound_le_add_half a
  have h2 := sub_half_le_pyRound b
  exact int_le_of_cast_le_add_half (by linarith)

/-- An empty string strips to the empty string. -/
theorem pyStrip_empty_of_data_nil {t : String} (h : t.data = []) :
    (pyStrip t).data = [] := by
  simp [pyStrip, h, dropLeadingWS]

/-! ## Claim theorems -/

/-- C8: `should_compress_audio` returns `(true, "+15%")` exactly when the
stripped character count divided by the reading speed of 5 chars/s strictly
exceeds the 55 s budget, and `(false, "+0%")` otherwise; the empty text
never triggers compression. -/
theorem should_compress_audio_iff_budget_exceeded :
    ∀ t : String,
      should_compress_audio t TIKTOK_MAX_DURATION =
        (if TIKTOK_MAX_DURATION < (pyLen (pyStrip t) : ℚ) / 5 then
          (true, TIKTOK_COMPRESS_RATE) else (false, "+0%"))
      ∧ should_compress_audio "" TIKTOK_MAX_DURATION = (false, "+0%") := by
  intro t
  constructor
  · rw [should_compress_audio, estimate_reading_time]
    by_cases h : t.data = []
    · rw [if_pos h]
      rw [pyLen, pyStrip_empty_of_data_nil h]
      norm_num [TIKTOK_MAX_DURATION]
    · rw [if_neg h]
  · rw [should_compress_audio, estimate_reading_time]
    norm_num [TIKTOK_MAX_DURATION]

/-- C6: for every text and every base-rate string that parses as a signed
percentage in [-100, 100], `_calculate_dynamic_rate` returns the base value
plus the length-tier bonus clamped to [-50, 50], formatted as a signed
percentage string; in particular the clamped value lies in [-50, 50]. -/
theorem calculate_dynamic_rate_clamped (text bs : String) (b : ℤ)
    (hp : parseBaseRate bs = some b) (h1 : -100 ≤ b) (h2 : b ≤ 100) :
    _calculate_dynamic_rate text bs =
      some (formatRate (max (-50) (min 50 (b + dynamicRateValue (pyLen (pyStrip text))))))
    ∧ -50 ≤ max (-50) (min 50 (b + dynamicRateValue (pyLen (pyStrip text))))
    ∧ max (-50) (min 50 (b + dynamicRateValue (pyLen (pyStrip text)))) ≤ 50 := by
  refine ⟨?_, le_max_left _ _, ?_⟩
  · rw [_calculate_dynamic_rate, hp]
  · exact max_le (by norm_num) (min_le_left _ _)

/-- C6 witness: a 5-character text with base rate "-10%" (parsed value -10,
short tier bonus 0) yields the clamped, formatted "-10%". -/
theorem calculate_dynamic_rate_clamped_witness :
    _calculate_dynamic_rate "hello" "-10%" =
      some (formatRate (max (-50) (min 50 ((-10) + dynamicRateValue (pyLen (pyStrip "hello"))))))
    ∧ -50 ≤ max (-50) (min 50 ((-10) + dynamicRateValue (pyLen (pyStrip "hello"))))
    ∧ max (-50) (min 50 ((-10) + dynamicRateValue (pyLen (pyStrip "hello")))) ≤ 50 :=
  calculate_dynamic_rate_clamped "hello" "-10%" (-10) (by decide) (by decide) (by decide)

/-- C7 counterexample: the non-numeric base rate `"abc"` makes
`_calculate_dynamic_rate` raise `ValueError` (modelled `none`) instead of
being treated as 0 — the function is not total on malformed base rates. -/
theorem calculate_dynamic_rate_malformed_raises :
    _calculate_dynamic_rate "안녕하세요" "abc" = none := by decide

/-- C7 amended: `_calculate_dynamic_rate` returns a result for every base
rate whose numeric parse succeeds; the empty base rate is parsed as 0 and
treated like "+0%"; a non-numeric base rate raises. -/
theorem calculate_dynamic_rate_total_on_parsable (text bs : String)
    (h : (parseBaseRate bs).isSome) :
    (_calculate_dynamic_rate text bs).isSome
    ∧ parseBaseRate "" = some 0
    ∧ _calculate_dynamic_rate text "" = _calculate_dynamic_rate text "+0%" := by
  refine ⟨?_, by decide, ?_⟩
  · obtain ⟨b, hb⟩ := Option.isSome_iff_exists.mp h
    rw [_calculate_dynamic_rate, hb]
    rfl
  · rw [_calculate_dynamic_rate, _calculate_dynamic_rate,
      show parseBaseRate "" = some 0 from by decide,
      show parseBaseRate "+0%" = some 0 from by decide]

/-- C7 amended witness: the well-formed base rate "-10%" yields a result. -/
theorem calculate_dynamic_rate_total_on_parsable_witness :
    (_calculate_dynamic_rate "안녕" "-10%").isSome
    ∧ parseBaseRate "" = some 0
    ∧ _calculate_dynamic_rate "안녕" "" = _calculate_dynamic_rate "안녕" "+0%" :=
  calculate_dynamic_rate_total_on_parsable "안녕" "-10%" (by decide)

/-- C9 counterexample: after a successful synthesis (file exists) whose
metadata read fails, `get_audio_duration` returns 0.0; it does not return
the file-size estimate of the spec (for a 10 MB file, 50 s) and its result
carries no low-confidence flag. -/
theorem get_audio_duration_no_size_fallback :
    get_audio_duration true none = 0
    ∧ spec_audio_duration none 10 = (50, true)
    ∧ get_audio_duration true none ≠ (spec_audio_duration none 10).1 := by
  refine ⟨rfl, ?_, ?_⟩ <;> norm_num [get_audio_duration, spec_audio_duration]

/-- C9 amended: on a metadata-read failure `get_audio_duration` logs and
returns 0.0 (no size-based estimate, no flag — its result is a bare
number); a successful read is returned as-is; a missing file yields 0.0.
The file-size heuristic `size/0.2` lives only in `get_video_duration`. -/
theorem get_audio_duration_returns_zero_on_failure :
    ∀ (d sizeMB : ℚ) (m : Option ℚ),
      get_audio_duration true none = 0
      ∧ get_audio_duration true (some d) = d
      ∧ get_audio_duration false m = 0
      ∧ get_video_duration true none sizeMB = sizeMB / (2/10) := by
  intro d sizeMB m
  refine ⟨rfl, rfl, rfl, rfl⟩

/-- A successful `render_single_video` means the output file's existence
was checked. -/
theorem render_single_video_verifies_output {env : RenderEnv}
    (h : render_single_video env = true) : env.outputExists = true := by
  rw [render_single_video] at h
  split_ifs at h
  exact h

/-- C1 counterexample: with the full 5-entry manifest, job 2 failing with a
non-zero exit and job 4 with a missing output file, `render_all_videos`
returns only the three succeeded output paths — the failed composition ids
are not part of its return value (its result is a single list, not the
(succeeded, failed) pair the claim describes). -/
theorem render_all_videos_returns_only_succeeded :
    render_all_videos 0 true
      [{ env := { jsonExists := true, procRaises := false, outputExists := true }, raised := false },
       { env := { jsonExists := true, procRaises := true, outputExists := false }, raised := false },
       { env := { jsonExists := true, procRaises := false, outputExists := true }, raised := false },
       { env := { jsonExists := true, procRaises := false, outputExists := false }, raised := false },
       { env := { jsonExists := true, procRaises := false, outputExists := true }, raised := false }] =
      ["topik-video/public/V1_News_0.mp4",
       "topik-video/public/V3_Vocab_0.mp4",
       "topik-video/public/V5_DeepDive_0.mp4"]
    ∧ "TikTok-WritingCoach" ∉ render_all_videos 0 true
      [{ env := { jsonExists := true, procRaises := false, outputExists := true }, raised := false },
       { env := { jsonExists := true, procRaises := true, outputExists := false }, raised := false },
       { env := { jsonExists := true, procRaises := false, outputExists := true }, raised := false },
       { env := { jsonExists := true, procRaises := false, outputExists := false }, raised := false },
       { env := { jsonExists := true, procRaises := false, outputExists := true }, raised := false }]
    ∧ "TikTok-GrammarQuiz" ∉ render_all_videos 0 true
      [{ env := { jsonExists := true, procRaises := false, outputExists := true }, raised := false },
       { env := { jsonExists := true, procRaises := true, outputExists := false }, raised := false },
       { env := { jsonExists := true, procRaises := false, outputExists := true }, raised := false },
       { env := { jsonExists := true, procRaises := false, outputExists := false }, raised := false },
       { env := { jsonExists := true, procRaises := false, outputExists := true }, raised := false }] := by
  refine ⟨by decide, by decide, by decide⟩

/-- C1 amended: the loop records each job's outcome in isolation — for the
5-job manifest where job 2 fails with a non-zero exit and job 4 with a
missing output file, the internal (rendered, failed) pair is exactly the
three succeeded paths of jobs 1, 3, 5 and the two failed composition ids of
jobs 2, 4, the loop having continued past both failures; but
`render_all_videos` returns only the first component, the failed ids are
only logged. -/
theorem render_loop_partitions_faulty_manifest :
    renderLoop 0 (VIDEO_MANIFEST.zip
      [{ env := { jsonExists := true, procRaises := false, outputExists := true }, raised := false },
       { env := { jsonExists := true, procRaises := true, outputExists := false }, raised := false },
       { env := { jsonExists := true, procRaises := false, outputExists := true }, raised := false },
       { env := { jsonExists := true, procRaises := false, outputExists := false }, raised := false },
       { env := { jsonExists := true, procRaises := false, outputExists := true }, raised := false }]) =
      (["topik-video/public/V1_News_0.mp4",
        "topik-video/public/V3_Vocab_0.mp4",
        "topik-video/public/V5_DeepDive_0.mp4"],
       ["TikTok-WritingCoach", "TikTok-GrammarQuiz"])
    ∧ render_all_videos 0 true
      [{ env := { jsonExists := true, procRaises := false, outputExists := true }, raised := false },
       { env := { jsonExists := true, procRaises := true, outputExists := false }, raised := false },
       { env := { jsonExists := true, procRaises := false, outputExists := true }, raised := false },
       { env := { jsonExists := true, procRaises := false, outputExists := false }, raised := false },
       { env := { jsonExists := true, procRaises := false, outputExists := true }, raised := false }] =
      ["topik-video/public/V1_News_0.mp4",
       "topik-video/public/V3_Vocab_0.mp4",
       "topik-video/public/V5_DeepDive_0.mp4"] := by
  refine ⟨by decide, by decide⟩

/-- C10: every manifest entry yields exactly one outcome — the number of
succeeded paths plus the number of failed composition ids equals the number
of entries — and every succeeded path belongs to an entry whose
`render_single_video` call returned true after verifying that the output
file exists. -/
theorem render_loop_outcome_partition :
    ∀ (ts : Nat) (jobs : List (ManifestEntry × JobWorld)),
      (renderLoop ts jobs).1.length + (renderLoop ts jobs).2.length = jobs.length
      ∧ ∀ p ∈ (renderLoop ts jobs).1, ∃ jw ∈ jobs,
          p = video_path ts jw.1 ∧ jw.2.raised = false
          ∧ render_single_video jw.2.env = true ∧ jw.2.env.outputExists = true := by
  intro ts jobs
  induction jobs with
  | nil => exact ⟨rfl, by intro p hp; exact absurd hp (List.not_mem_nil p)⟩
  | cons j rest ih =>
    obtain ⟨e, w⟩ := j
    rw [renderLoop]
    by_cases hr : w.raised
    · simp only [hr, if_true]
      refine ⟨by simpa [Nat.add_assoc] using congrArg (· + 1) ih.1, ?_⟩
      intro p hp
      obtain ⟨jw, hjw, hrest⟩ := ih.2 p hp
      exact ⟨jw, List.mem_cons_of_mem _ hjw, hrest⟩
    · by_cases hs : render_single_video w.env = true
      · simp only [hr, if_false, hs, if_true, Bool.false_eq_true]
        constructor
        · simpa [Nat.succ_add] using congrArg Nat.succ ih.1
        · intro p hp
          rcases List.mem_cons.mp hp with h | h
          · exact ⟨(e, w), List.mem_cons_self _ _,
              h, Bool.not_eq_true _ ▸ (Bool.of_not_eq_true hr),
              hs, render_single_video_verifies_output hs⟩
          · obtain ⟨jw, hjw, hrest⟩ := ih.2 p h
            exact ⟨jw, List.mem_cons_of_mem _ hjw, hrest⟩
      · simp only [hr, if_false, hs, Bool.false_eq_true]
        refine ⟨by simpa [Nat.add_assoc] using congrArg (· + 1) ih.1, ?_⟩
        intro p hp
        obtain ⟨jw, hjw, hrest⟩ := ih.2 p hp
        exact ⟨jw, List.mem_cons_of_mem _ hjw, hrest⟩

/-- C10 witness: a one-entry manifest with a succeeding job — the partition
count is 1 and the produced path is traced back to its verified entry. -/
theorem render_loop_outcome_partition_witness :
    ((renderLoop 0 [(⟨"video_1_news", "TikTok-NewsHealing", "V1_News", "v1_news.mp3"⟩,
        ⟨⟨true, false, true⟩, false⟩)]).1.length
     + (renderLoop 0 [(⟨"video_1_news", "TikTok-NewsHealing", "V1_News", "v1_news.mp3"⟩,
        ⟨⟨true, false, true⟩, false⟩)]).2.length = 1)
    ∧ ∃ jw ∈ ([(⟨"video_1_news", "TikTok-NewsHealing", "V1_News", "v1_news.mp3"⟩,
        ⟨⟨true, false, true⟩, false⟩)] : List (ManifestEntry × JobWorld)),
        "topik-video/public/V1_News_0.mp4" = video_path 0 jw.1 ∧ jw.2.raised = false
        ∧ render_single_video jw.2.env = true ∧ jw.2.env.outputExists = true := by
  have h := render_loop_outcome_partition 0
    [(⟨"video_1_news", "TikTok-NewsHealing", "V1_News", "v1_news.mp3"⟩,
      ⟨⟨true, false, true⟩, false⟩)]
  exact ⟨h.1, h.2 "topik-video/public/V1_News_0.mp4" (by decide)⟩

/-- The deep-dive loop's running total is the initial total plus each
processed call's duration-plus-pause. -/
theorem deepLoop_total (cs : List DeepCall) :
    ∀ st : DeepState, (deepLoop st cs).total = st.total + deepDurSum cs := by
  induction cs with
  | nil => intro st; simp [deepLoop, deepDurSum]
  | cons c cs ih =>
    intro st
    rw [deepLoop, deepDurSum, ih, process_segment]
    by_cases h1 : (pyStrip c.ko).data = []
    · rw [if_pos h1, if_pos (Or.inl h1)]
      ring
    · by_cases h2 : c.dur ≤ 0
      · rw [if_neg h1, if_pos h2, if_pos (Or.inr h2)]
        ring
      · rw [if_neg h1, if_neg h2, if_neg (by tauto)]
        dsimp only
        ring

/-- C2 counterexample: a deep-dive run with one 10 s segment reports
`total_duration = 10.5` — the running sum of the segment duration and the
0.5 s pause — even when re-reading the exported combined file would give
10.456 s (encoder rounding): the deep-dive variant's reported duration is
the sum of parts, not the re-measured export. -/
theorem deep_dive_total_is_sum_of_parts :
    (_build_video5_deep_dive [⟨"news", "뉴스", 10⟩]).total_duration = 21/2
    ∧ spec_total_duration (10456/1000) = 10456/1000
    ∧ (_build_video5_deep_dive [⟨"news", "뉴스", 10⟩]).total_duration ≠
        spec_total_duration (10456/1000) := by
  have hne : (pyStrip ("뉴스" : String)).data ≠ [] := by decide
  have h1 : (_build_video5_deep_dive [⟨"news", "뉴스", 10⟩]).total_duration = 21/2 := by
    rw [_build_video5_deep_dive]
    dsimp only
    rw [deepLoop, deepLoop, process_segment, if_neg hne, if_neg (by norm_num : ¬ (10:ℚ) ≤ 0)]
    dsimp only
    rw [pyRoundDigits, pyRound]
    norm_num [round_eq]
  have h2 : spec_total_duration (10456/1000) = 10456/1000 := by
    rw [spec_total_duration, pyRoundDigits, pyRound]
    norm_num [round_eq]
  refine ⟨h1, h2, ?_⟩
  rw [h1, h2]
  norm_num

/-- C2 amended: the short-form news variant's reported `total_duration` is
the re-measured duration of the exported combined file whenever any audio
was appended; but the deep-dive variant's reported `total_duration` is
`round(·, 3)` of the sum of its segment durations plus the 0.5 s silence
pauses, independent of the exported file. -/
theorem total_duration_remeasured_except_deep_dive (s : V1Script)
    (od : ℚ) (sd : List ℚ) (cd mc : ℚ)
    (h : v1AnyAudio s od sd cd = true) :
    v1TotalDuration s od sd cd mc = spec_total_duration mc
    ∧ ∀ calls : List DeepCall,
        (_build_video5_deep_dive calls).total_duration =
          pyRoundDigits (deepDurSum calls) 3 := by
  constructor
  · rw [v1TotalDuration, if_pos h, spec_total_duration]
  · intro calls
    rw [_build_video5_deep_dive]
    dsimp only
    rw [deepLoop_total]
    norm_num

/-- C2 amended witness: a news script with one successful 2 s opening
reports the re-measured 7.25 s of its exported combined file. -/
theorem total_duration_remeasured_witness :
    v1TotalDuration ⟨"오프닝", "", [], ""⟩ 2 [] 0 (29/4) = spec_total_duration (29/4)
    ∧ ∀ calls : List DeepCall,
        (_build_video5_deep_dive calls).total_duration =
          pyRoundDigits (deepDurSum calls) 3 := by
  have h : v1AnyAudio ⟨"오프닝", "", [], ""⟩ 2 [] 0 = true := by
    rw [v1AnyAudio]
    rw [decide_eq_true_eq]
    exact Or.inl ⟨by decide, by norm_num⟩
  exact total_duration_remeasured_except_deep_dive _ _ _ _ _ h

/-- The function `should_compress_audio` only ever returns the two constant pairs. -/
theorem should_compress_audio_cases (t : String) (m : ℚ) :
    should_compress_audio t m = (true, TIKTOK_COMPRESS_RATE)
    ∨ should_compress_audio t m = (false, "+0%") := by
  rw [should_compress_audio]
  split_ifs <;> simp

/-- The script with two all-`'k'` segments of 40 and 250 characters used
against C3: its total text estimates over the 55 s budget. -/
theorem v1_compresses_concrete :
    should_compress_audio (v1TotalText ⟨"", "", [kText40, kText250], ""⟩)
      TIKTOK_MAX_DURATION = (true, TIKTOK_COMPRESS_RATE) := by
  set_option maxRecDepth 40000 in
  have hlen : pyLen (pyStrip (v1TotalText ⟨"", "", [kText40, kText250], ""⟩)) = 291 := by
    decide
  set_option maxRecDepth 40000 in
  have hdata : (v1TotalText ⟨"", "", [kText40, kText250], ""⟩).data ≠ [] := by decide
  have hest : estimate_reading_time (v1TotalText ⟨"", "", [kText40, kText250], ""⟩) 5
      = 291 / 5 := by
    rw [estimate_reading_time, if_neg hdata, hlen]
    norm_num
  rw [should_compress_audio, hest, if_pos (by norm_num [TIKTOK_MAX_DURATION])]

/-- The effective rates of the concrete compressed news variant: the short
segment is synthesized at "+15%", the long one at "+30%". -/
theorem v1_calls_concrete :
    v1SynthCalls ⟨"", "", [kText40, kText250], ""⟩ =
      [V1Call.segment kText40 (some "+15%"), V1Call.segment kText250 (some "+30%")] := by
  have hb : v1BaseRate ⟨"", "", [kText40, kText250], ""⟩ = "+15%" := by
    rw [v1BaseRate, v1_compresses_concrete]
    rfl
  rw [v1SynthCalls]
  rw [if_neg (by decide)]
  rw [hb]
  set_option maxRecDepth 40000 in
  decide

/-- C3 counterexample: in the compressed news variant with a 40-character
and a 250-character segment, compression triggers, yet the two content
segments are synthesized at different effective rates ("+15%" vs "+30%"):
the per-text dynamic tier bonus is added on top of the flat compression
rate, not bypassed. -/
theorem compressed_variant_rates_differ :
    (should_compress_audio (v1TotalText ⟨"", "", [kText40, kText250], ""⟩)
      TIKTOK_MAX_DURATION).1 = true
    ∧ v1SynthCalls ⟨"", "", [kText40, kText250], ""⟩ =
      [V1Call.segment kText40 (some "+15%"), V1Call.segment kText250 (some "+30%")]
    ∧ (some "+15%" : Option String) ≠ some "+30%" := by
  exact ⟨by rw [v1_compresses_concrete], v1_calls_concrete, by decide⟩

/-- C3 amended: when the variant is flagged for compression the flat
compression rate replaces the voice base rate, and the opening/closing
calls use it flat; but every content-segment call still computes its rate
per individual text by the dynamic tiering on top of that base rate — both
when flagged (base "+15%") and when not flagged (base "-10%"). -/
theorem v1_synth_call_rates (s : V1Script) :
    (∀ c ∈ v1SynthCalls s,
      (∀ r, c = V1Call.opening r → r = some (v1BaseRate s))
      ∧ (∀ ko r, c = V1Call.segment ko r → r = _calculate_dynamic_rate ko (v1BaseRate s))
      ∧ (∀ r, c = V1Call.closing r → r = some (v1BaseRate s)))
    ∧ ((should_compress_audio (v1TotalText s) TIKTOK_MAX_DURATION).1 = true →
        v1BaseRate s = TIKTOK_COMPRESS_RATE)
    ∧ ((should_compress_audio (v1TotalText s) TIKTOK_MAX_DURATION).1 = false →
        v1BaseRate s = "-10%") := by
  refine ⟨?_, ?_, ?_⟩
  · intro c hc
    rw [v1SynthCalls] at hc
    by_cases h0 : v1EffSegments s = [] ∧ s.opening_ment.data = []
    · rw [if_pos h0] at hc
      exact absurd hc (List.not_mem_nil c)
    · rw [if_neg h0] at hc
      rcases List.mem_append.mp hc with hc | hc
      rcases List.mem_append.mp hc with hc | hc
      · by_cases ho : s.opening_ment.data ≠ []
        · rw [if_pos ho] at hc
          have hceq := List.mem_singleton.mp hc
          subst hceq
          refine ⟨fun r hr => ?_, fun ko r hr => V1Call.noConfusion hr,
            fun r hr => V1Call.noConfusion hr⟩
          injection hr with h
          rw [← h]
          rfl
        · rw [if_neg ho] at hc
          exact absurd hc (List.not_mem_nil c)
      · obtain ⟨ko, _, hko⟩ := List.mem_filterMap.mp hc
        by_cases hk : ko.data = []
        · rw [if_pos hk] at hko
          exact Option.noConfusion hko
        · rw [if_neg hk] at hko
          have hceq := Option.some_injective _ hko
          subst hceq
          refine ⟨fun r hr => V1Call.noConfusion hr, fun ko' r hr => ?_,
            fun r hr => V1Call.noConfusion hr⟩
          injection hr with h1 h2
          subst h1
          rw [← h2]
          rfl
      · by_cases hcl : s.closing_ment.data ≠ []
        · rw [if_pos hcl] at hc
          have hceq := List.mem_singleton.mp hc
          subst hceq
          refine ⟨fun r hr => V1Call.noConfusion hr, fun ko r hr => V1Call.noConfusion hr,
            fun r hr => ?_⟩
          injection hr with h
          rw [← h]
          rfl
        · rw [if_neg hcl] at hc
          exact absurd hc (List.not_mem_nil c)
  · intro h
    rcases should_compress_audio_cases (v1TotalText s) TIKTOK_MAX_DURATION with hca | hca
    · rw [v1BaseRate, hca]
      rfl
    · rw [hca] at h
      cases h
  · intro h
    rcases should_compress_audio_cases (v1TotalText s) TIKTOK_MAX_DURATION with hca | hca
    · rw [hca] at h
      cases h
    · rw [v1BaseRate, hca]
      rfl

/-- C3 amended witness: in the concrete compressed variant, the
40-character segment call carries exactly the dynamically tiered rate over
the variant base rate. -/
theorem v1_synth_call_rates_witness :
    (some "+15%" : Option String) =
      _calculate_dynamic_rate kText40 (v1BaseRate ⟨"", "", [kText40, kText250], ""⟩) := by
  have h := v1_synth_call_rates ⟨"", "", [kText40, kText250], ""⟩
  have hm : V1Call.segment kText40 (some "+15%") ∈
      v1SynthCalls ⟨"", "", [kText40, kText250], ""⟩ := by
    rw [v1_calls_concrete]
    exact List.mem_cons_self _ _
  exact (h.1 _ hm).2.1 kText40 (some "+15%") rfl

/-- C4 counterexample: in a quiz with opening and closing present, the
combined audio is a seven-piece sequence — 0.3 s short pauses follow the
opening and precede the closing — so it is not *exactly* the five-piece
sequence [opening, question, silence, answer, closing] the claim states. -/
theorem quiz_combined_has_short_pauses :
    (_build_quiz_audio ⟨"안녕", "끝", "질문", ["가", "나"], "가", "설명"⟩ "3" 1 2 3 1).combined =
      [(QuizPiece.opening, 1), (QuizPiece.shortPause, 3/10), (QuizPiece.questionBlock, 2),
       (QuizPiece.thinkingSilence, 4), (QuizPiece.answerBlock, 3),
       (QuizPiece.shortPause, 3/10), (QuizPiece.closing, 1)]
    ∧ (_build_quiz_audio ⟨"안녕", "끝", "질문", ["가", "나"], "가", "설명"⟩ "3" 1 2 3 1).combined ≠
      [(QuizPiece.opening, 1), (QuizPiece.questionBlock, 2), (QuizPiece.thinkingSilence, 4),
       (QuizPiece.answerBlock, 3), (QuizPiece.closing, 1)] := by
  have h1 : (_build_quiz_audio ⟨"안녕", "끝", "질문", ["가", "나"], "가", "설명"⟩ "3" 1 2 3 1).combined =
      [(QuizPiece.opening, 1), (QuizPiece.shortPause, 3/10), (QuizPiece.questionBlock, 2),
       (QuizPiece.thinkingSilence, 4), (QuizPiece.answerBlock, 3),
       (QuizPiece.shortPause, 3/10), (QuizPiece.closing, 1)] := by
    rw [_build_quiz_audio, if_neg (show ¬("질문" : String).data = [] from by decide)]
    dsimp only
    rw [if_pos ⟨show ("안녕" : String).data ≠ [] from by decide, show (0:ℚ) < 1 from by norm_num⟩]
    rw [if_pos ⟨show ("끝" : String).data ≠ [] from by decide, show (0:ℚ) < 1 from by norm_num⟩]
    norm_num [QUIZ_SILENCE_MS]
  refine ⟨h1, ?_⟩
  rw [h1]
  intro hcontra
  have := congrArg List.length hcontra
  norm_num at this

/-- C4 amended: for every quiz script with a non-empty question, the
combined audio is exactly [opening?, 0.3 s pause (with the opening),
question block, 4.0 s thinking silence, answer block, 0.3 s pause and
closing (when present)], in that order; the silence always equals
`QUIZ_SILENCE_MS/1000 = 4.0 s` whatever the compression state; and the four
sub-audio pieces are exported as separate files. -/
theorem quiz_structure (s : QuizScript) (vn : String) (od qd ad cd : ℚ)
    (h : s.question_ko.data ≠ []) :
    (_build_quiz_audio s vn od qd ad cd).combined =
      (if s.opening_ment.data ≠ [] ∧ 0 < od then
        [(QuizPiece.opening, od), (QuizPiece.shortPause, 3/10)] else [])
      ++ [(QuizPiece.questionBlock, qd), (QuizPiece.thinkingSilence, 4),
          (QuizPiece.answerBlock, ad)]
      ++ (if s.closing_ment.data ≠ [] ∧ 0 < cd then
        [(QuizPiece.shortPause, 3/10), (QuizPiece.closing, cd)] else [])
    ∧ (_build_quiz_audio s vn od qd ad cd).silence_duration = 4
    ∧ (_build_quiz_audio s vn od qd ad cd).ssml_compressed =
        (should_compress_audio (quizTotalText s) TIKTOK_MAX_DURATION).1
    ∧ (_build_quiz_audio s vn od qd ad cd).exported =
        (if s.opening_ment.data ≠ [] ∧ 0 < od then
          [pyConcat (pyConcat "v" vn) "_opening.mp3"] else [])
        ++ [pyConcat (pyConcat "v" vn) "_question.mp3",
            pyConcat (pyConcat "v" vn) "_answer.mp3"]
        ++ (if s.closing_ment.data ≠ [] ∧ 0 < cd then
          [pyConcat (pyConcat "v" vn) "_closing.mp3"] else []) := by
  rw [_build_quiz_audio, if_neg h]
  refine ⟨?_, ?_, ?_, ?_⟩
  · dsimp only
    norm_num [QUIZ_SILENCE_MS]
  · dsimp only
    norm_num [QUIZ_SILENCE_MS]
  · rfl
  · rfl

/-- C4 amended witness: a quiz with empty opening and closing — the
thinking silence is the 4 s constant. -/
theorem quiz_structure_witness :
    (_build_quiz_audio ⟨"", "", "질문", [], "가", ""⟩ "3" 0 2 3 0).silence_duration = 4 :=
  (quiz_structure ⟨"", "", "질문", [], "가", ""⟩ "3" 0 2 3 0 (by decide)).2.1

/-- Timestamp start values produced by the deep-dive loop: the recorded
starts are the whole-second roundings of the exact running offsets. -/
theorem deepLoop_starts (cs : List DeepCall) :
    ∀ st : DeepState,
      (deepLoop st cs).timestamps.map DeepTimestamp.start_sec =
        st.timestamps.map DeepTimestamp.start_sec
        ++ (deepOffsets st.total cs).map (fun q => pyRoundDigits q 0) := by
  induction cs with
  | nil => intro st; simp [deepLoop, deepOffsets]
  | cons c cs ih =>
    intro st
    rw [deepLoop, deepOffsets, process_segment]
    by_cases h1 : (pyStrip c.ko).data = []
    · rw [if_pos h1, if_pos (Or.inl h1), ih]
    · by_cases h2 : c.dur ≤ 0
      · rw [if_neg h1, if_pos h2, if_pos (Or.inr h2), ih]
      · rw [if_neg h1, if_neg h2, if_neg (by tauto), ih]
        dsimp only
        rw [List.map_append]
        simp [List.append_assoc]

/-- Each contribution to the deep-dive running sum is non-negative. -/
theorem deepDurSum_nonneg (cs : List DeepCall) : 0 ≤ deepDurSum cs := by
  induction cs with
  | nil => rw [deepDurSum]
  | cons c cs ih =>
    rw [deepDurSum]
    by_cases h : (pyStrip c.ko).data = [] ∨ c.dur ≤ 0
    · rw [if_pos h]
      linarith
    · rw [if_neg h]
      push_neg at h
      linarith [h.2]

/-- Every exact offset recorded by the deep-dive loop is at least a pause
plus a millisecond below the final running sum, provided every successful
segment lasts at least 1 ms. -/
theorem deepOffsets_below_sum (cs : List DeepCall)
    (h : ∀ c ∈ cs, 0 < c.dur → 1/1000 ≤ c.dur) :
    ∀ t : ℚ, ∀ x ∈ deepOffsets t cs, x + 1/2 + 1/1000 ≤ t + deepDurSum cs := by
  induction cs with
  | nil => intro t x hx; exact absurd hx (List.not_mem_nil x)
  | cons c cs ih =>
    intro t x hx
    rw [deepOffsets] at hx
    rw [deepDurSum]
    by_cases hc : (pyStrip c.ko).data = [] ∨ c.dur ≤ 0
    · rw [if_pos hc] at hx
      rw [if_pos hc]
      have := ih (fun d hd => h d (List.mem_cons_of_mem c hd)) t x hx
      linarith
    · rw [if_neg hc] at hx
      rw [if_neg hc]
      have hdpos : 0 < c.dur := by
        push_neg at hc
        exact hc.2
      have hdms : 1/1000 ≤ c.dur := h c (List.mem_cons_self c cs) hdpos
      rcases List.mem_cons.mp hx with rfl | hx
      · have := deepDurSum_nonneg cs
        linarith
      · have := ih (fun d hd => h d (List.mem_cons_of_mem c hd)) (x + c.dur + 1/2)
        have h2 := ih (fun d hd => h d (List.mem_cons_of_mem c hd)) (t + c.dur + 1/2) _ hx
        linarith

/-- Every exact offset is at least the loop's entry offset. -/
theorem deepOffsets_mem_ge (cs : List DeepCall) :
    ∀ t : ℚ, ∀ x ∈ deepOffsets t cs, t ≤ x := by
  induction cs with
  | nil => intro t x hx; exact absurd hx (List.not_mem_nil x)
  | cons c cs ih =>
    intro t x hx
    rw [deepOffsets] at hx
    by_cases hc : (pyStrip c.ko).data = [] ∨ c.dur ≤ 0
    · rw [if_pos hc] at hx
      exact ih t x hx
    · rw [if_neg hc] at hx
      have hdpos : 0 < c.dur := by
        push_neg at hc
        exact hc.2
      rcases List.mem_cons.mp hx with rfl | hx
      · exact le_refl x
      · have := ih (t + c.dur + 1/2) x hx
        linarith

/-- Consecutive exact offsets are at least half a second apart. -/
theorem deepOffsets_chain (cs : List DeepCall) :
    ∀ t : ℚ, List.Chain' (fun a b => a + 1/2 ≤ b) (deepOffsets t cs) := by
  induction cs with
  | nil => intro t; rw [deepOffsets]; exact List.chain'_nil
  | cons c cs ih =>
    intro t
    rw [deepOffsets]
    by_cases hc : (pyStrip c.ko).data = [] ∨ c.dur ≤ 0
    · rw [if_pos hc]
      exact ih t
    · rw [if_neg hc]
      have hdpos : 0 < c.dur := by
        push_neg at hc
        exact hc.2
      rw [List.chain'_cons']
      refine ⟨?_, ih _⟩
      intro y hy
      have hmem : y ∈ deepOffsets (t + c.dur + 1/2) cs := by
        rcases hhead : deepOffsets (t + c.dur + 1/2) cs with _ | ⟨z, l⟩
        · rw [hhead] at hy
          simp at hy
        · rw [hhead] at hy
          simp only [List.head?_cons, Option.mem_def, Option.some_inj] at hy
          rw [← hy]
          exact List.mem_cons_self z l
      have := deepOffsets_mem_ge cs (t + c.dur + 1/2) y hmem
      linarith

/-- C5 counterexample: with two 0.2 s segments, the running offset before
the second segment is 0.7 s, but the recorded start offset is the rounded
1 s — the recorded value is not the running offset itself. -/
theorem deep_dive_timestamp_rounding :
    (deepLoop { segments := [], timestamps := [], total := 0 } [⟨"opening", "가", 1/5⟩]).total = 7/10
    ∧ (_build_video5_deep_dive [⟨"opening", "가", 1/5⟩, ⟨"news", "나", 1/5⟩]).timestamps.map
        DeepTimestamp.start_sec = [0, 1]
    ∧ ((1 : ℚ) ≠ 7/10) := by
  have hga : ¬ (pyStrip ("가" : String)).data = [] := by decide
  have hna : ¬ (pyStrip ("나" : String)).data = [] := by decide
  have hd : ¬ ((1:ℚ)/5 ≤ 0) := by norm_num
  refine ⟨?_, ?_, by norm_num⟩
  · rw [deepLoop, deepLoop, process_segment, if_neg hga, if_neg hd]
    norm_num
  · have e1 : ((pyStrip ("가" : String)).data = []) = False := eq_false hga
    have e2 : ((pyStrip ("나" : String)).data = []) = False := eq_false hna
    have e3 : ((1:ℚ)/5 ≤ 0) = False := eq_false hd
    rw [_build_video5_deep_dive]
    dsimp only
    simp only [deepLoop, process_segment, e1, e2, e3, if_false,
      List.nil_append, List.map_append, List.map_cons, List.map_nil]
    rw [pyRoundDigits, pyRoundDigits, pyRound, pyRound]
    norm_num [round_eq]

/-- C5 amended: the recorded start offsets are exactly the whole-second
(banker's) roundings of the running offsets accumulated before each
segment was appended; they are non-decreasing in assembly order; and —
when every successful segment lasts at least 1 ms — every timestamp
(in particular the last) is strictly below the reported total duration. -/
theorem deep_dive_timestamps_sound (calls : List DeepCall)
    (h : ∀ c ∈ calls, 0 < c.dur → 1/1000 ≤ c.dur) :
    (_build_video5_deep_dive calls).timestamps.map DeepTimestamp.start_sec =
      (deepOffsets 0 calls).map (fun q => pyRoundDigits q 0)
    ∧ List.Chain' (· ≤ ·)
        ((_build_video5_deep_dive calls).timestamps.map DeepTimestamp.start_sec)
    ∧ ∀ ts ∈ (_build_video5_deep_dive calls).timestamps,
        ts.start_sec < (_build_video5_deep_dive calls).total_duration := by
  have hmap : (_build_video5_deep_dive calls).timestamps.map DeepTimestamp.start_sec =
      (deepOffsets 0 calls).map (fun q => pyRoundDigits q 0) := by
    rw [_build_video5_deep_dive]
    dsimp only
    rw [deepLoop_starts]
    dsimp only
    rw [List.map_nil, List.nil_append]
  refine ⟨hmap, ?_, ?_⟩
  · rw [hmap, List.chain'_map]
    refine (deepOffsets_chain calls 0).imp ?_
    intro a b hab
    rw [pyRoundDigits_zero, pyRoundDigits_zero]
    exact_mod_cast pyRound_le_of_add_half_le hab
  · intro ts hts
    have hsm : ts.start_sec ∈ (deepOffsets 0 calls).map (fun q => pyRoundDigits q 0) := by
      rw [← hmap]
      exact List.mem_map_of_mem DeepTimestamp.start_sec hts
    obtain ⟨x, hx, hxe⟩ := List.mem_map.mp hsm
    have htot : (_build_video5_deep_dive calls).total_duration =
        pyRoundDigits (deepDurSum calls) 3 := by
      rw [_build_video5_deep_dive]
      dsimp only
      rw [deepLoop_total]
      norm_num
    have hbound := deepOffsets_below_sum calls h 0 x hx
    have hge := pyRoundDigits_three_ge (deepDurSum calls)
    have hround : ts.start_sec ≤ x + 1/2 := by
      rw [← hxe, pyRoundDigits_zero]
      exact pyRound_le_add_half x
    rw [htot]
    linarith

/-- C5 amended witness: two concrete segments of 1.2 s and 2 s — the
recorded starts are the rounded offsets and non-decreasing. -/
theorem deep_dive_timestamps_sound_witness :
    (_build_video5_deep_dive [⟨"opening", "가", 6/5⟩, ⟨"news", "나", 2⟩]).timestamps.map
        DeepTimestamp.start_sec =
      (deepOffsets 0 [⟨"opening", "가", 6/5⟩, ⟨"news", "나", 2⟩]).map
        (fun q => pyRoundDigits q 0)
    ∧ List.Chain' (· ≤ ·)
        ((_build_video5_deep_dive [⟨"opening", "가", 6/5⟩, ⟨"news", "나", 2⟩]).timestamps.map
          DeepTimestamp.start_sec) := by
  have h := deep_dive_timestamps_sound [⟨"opening", "가", 6/5⟩, ⟨"news", "나", 2⟩]
    (by intro c hc hpos; rcases List.mem_cons.mp hc with rfl | hc <;> norm_num
        rcases List.mem_cons.mp hc with rfl | hc
        · norm_num
        · exact absurd hc (List.not_mem_nil c))
  exact ⟨h.1, h.2.1⟩

end TIK

